import Mathlib

/-!
Shallow embedding of the SPIR-V instruction representation declared in
`tools/clang/include/clang/SPIRV/SpirvInstruction.h`.

Pointers to other instructions or basic blocks are modelled by their numeric
identity (`Nat`); optional pointers (which may be null in the C++ source)
become `Option Nat`.  Opaque clang types (`QualType`, `SourceLocation`) are
modelled as `Nat` identities, since the header never inspects them.
Method bodies that live only in the corresponding `.cpp` file (not part of
the sources at hand) are modelled from the specification and marked as such
in their doc comments.
-/

/-- Numeric identity of a `SpirvBasicBlock *` (the header only passes these
pointers around, never dereferences them). -/
abbrev SpirvBasicBlockRef := Nat

/-- Numeric identity of a `SpirvInstruction *` operand reference. -/
abbrev SpirvInstructionRef := Nat

/-- Opaque model of `clang::QualType`. -/
abbrev QualTypeRef := Nat

/-- Opaque model of `clang::SourceLocation`. -/
abbrev SourceLocationRef := Nat

/-- The `SpirvInstruction::Kind` enumeration, in the exact declaration order
of the header (the order matters for the range-based `classof` checks). -/
inductive Kind where
  | IK_Capability
  | IK_Extension
  | IK_ExtInstImport
  | IK_MemoryModel
  | IK_EntryPoint
  | IK_ExecutionMode
  | IK_String
  | IK_Source
  | IK_Name
  | IK_ModuleProcessed
  | IK_Decoration
  | IK_Type
  | IK_Constant
  | IK_Variable
  | IK_FunctionParameter
  | IK_LoopMerge
  | IK_SelectionMerge
  | IK_Branch
  | IK_BranchConditional
  | IK_Kill
  | IK_Return
  | IK_Switch
  | IK_Unreachable
  | IK_AccessChain
  | IK_Atomic
  | IK_Barrier
  | IK_BinaryOp
  | IK_BitFieldExtract
  | IK_BitFieldInsert
  | IK_Composite
  | IK_CompositeExtract
  | IK_ExtInst
  | IK_FunctionCall
  | IK_GroupNonUniformBinaryOp
  | IK_GroupNonUniformElect
  | IK_GroupNonUniformUnaryOp
  | IK_ImageOp
  | IK_ImageQuery
  | IK_ImageSparseTexelsResident
  | IK_ImageTexelPointer
  | IK_Load
  | IK_SampledImage
  | IK_Select
  | IK_SpecConstantBinaryOp
  | IK_SpecConstantUnaryOp
  | IK_Store
  | IK_UnaryOp
  | IK_VectorShuffle
deriving DecidableEq, Repr, Fintype

/-- The numeric value the C++ enumerator receives: its 0-based position in the
declaration order.  Range-based `classof` checks compare these values. -/
def Kind.val : Kind → Nat
  | .IK_Capability => 0
  | .IK_Extension => 1
  | .IK_ExtInstImport => 2
  | .IK_MemoryModel => 3
  | .IK_EntryPoint => 4
  | .IK_ExecutionMode => 5
  | .IK_String => 6
  | .IK_Source => 7
  | .IK_Name => 8
  | .IK_ModuleProcessed => 9
  | .IK_Decoration => 10
  | .IK_Type => 11
  | .IK_Constant => 12
  | .IK_Variable => 13
  | .IK_FunctionParameter => 14
  | .IK_LoopMerge => 15
  | .IK_SelectionMerge => 16
  | .IK_Branch => 17
  | .IK_BranchConditional => 18
  | .IK_Kill => 19
  | .IK_Return => 20
  | .IK_Switch => 21
  | .IK_Unreachable => 22
  | .IK_AccessChain => 23
  | .IK_Atomic => 24
  | .IK_Barrier => 25
  | .IK_BinaryOp => 26
  | .IK_BitFieldExtract => 27
  | .IK_BitFieldInsert => 28
  | .IK_Composite => 29
  | .IK_CompositeExtract => 30
  | .IK_ExtInst => 31
  | .IK_FunctionCall => 32
  | .IK_GroupNonUniformBinaryOp => 33
  | .IK_GroupNonUniformElect => 34
  | .IK_GroupNonUniformUnaryOp => 35
  | .IK_ImageOp => 36
  | .IK_ImageQuery => 37
  | .IK_ImageSparseTexelsResident => 38
  | .IK_ImageTexelPointer => 39
  | .IK_Load => 40
  | .IK_SampledImage => 41
  | .IK_Select => 42
  | .IK_SpecConstantBinaryOp => 43
  | .IK_SpecConstantUnaryOp => 44
  | .IK_Store => 45
  | .IK_UnaryOp => 46
  | .IK_VectorShuffle => 47

/-- `SpirvMerge::classof`: `kind == IK_LoopMerge || kind == IK_SelectionMerge`.
Classification depends only on `getKind()`, so the predicates are functions of
the kind tag. -/
def SpirvMerge.classof (k : Kind) : Bool :=
  k == .IK_LoopMerge || k == .IK_SelectionMerge

/-- `SpirvLoopMerge::classof`: exact match on `IK_LoopMerge`. -/
def SpirvLoopMerge.classof (k : Kind) : Bool :=
  k == .IK_LoopMerge

/-- `SpirvSelectionMerge::classof`: exact match on `IK_SelectionMerge`. -/
def SpirvSelectionMerge.classof (k : Kind) : Bool :=
  k == .IK_SelectionMerge

/-- `SpirvTerminator::classof`:
`kind >= IK_Branch && kind <= IK_Unreachable`. -/
def SpirvTerminator.classof (k : Kind) : Bool :=
  decide (Kind.val .IK_Branch ≤ k.val) && decide (k.val ≤ Kind.val .IK_Unreachable)

/-- `SpirvBranching::classof`:
`kind >= IK_Branch && kind <= IK_BranchConditional`.  Note that this range
stops at `IK_BranchConditional`, even though `SpirvSwitch` derives from
`SpirvBranching`. -/
def SpirvBranching.classof (k : Kind) : Bool :=
  decide (Kind.val .IK_Branch ≤ k.val) && decide (k.val ≤ Kind.val .IK_BranchConditional)

/-- `SpirvBranch::classof`: exact match on `IK_Branch`. -/
def SpirvBranch.classof (k : Kind) : Bool :=
  k == .IK_Branch

/-- `SpirvBranchConditional::classof`: exact match on `IK_BranchConditional`. -/
def SpirvBranchConditional.classof (k : Kind) : Bool :=
  k == .IK_BranchConditional

/-- `SpirvKill::classof`: exact match on `IK_Kill`. -/
def SpirvKill.classof (k : Kind) : Bool :=
  k == .IK_Kill

/-- `SpirvReturn::classof`: exact match on `IK_Return`. -/
def SpirvReturn.classof (k : Kind) : Bool :=
  k == .IK_Return

/-- `SpirvSwitch::classof`: exact match on `IK_Switch`. -/
def SpirvSwitch.classof (k : Kind) : Bool :=
  k == .IK_Switch

/-- `SpirvUnreachable::classof`: exact match on `IK_Unreachable`. -/
def SpirvUnreachable.classof (k : Kind) : Bool :=
  k == .IK_Unreachable

/-- `SpirvGroupNonUniformOp::classof`:
`kind >= IK_GroupNonUniformBinaryOp && kind <= IK_GroupNonUniformUnaryOp`. -/
def SpirvGroupNonUniformOp.classof (k : Kind) : Bool :=
  decide (Kind.val .IK_GroupNonUniformBinaryOp ≤ k.val) &&
    decide (k.val ≤ Kind.val .IK_GroupNonUniformUnaryOp)

/-- C1: every `SpirvSwitch` instance carries kind `IK_Switch`; such an
instance satisfies its own `classof` and the terminator-range `classof`, but
the branching-terminator predicate `SpirvBranching::classof` rejects it,
because the range check `kind >= IK_Branch && kind <= IK_BranchConditional`
stops before `IK_Switch`.  This contradicts the header's own comment that the
branching instructions comprise OpBranch, OpBranchConditional and OpSwitch,
and contradicts `SpirvSwitch` deriving from `SpirvBranching` (LLVM-style RTTI
requires `classof` to hold on every instance of a derived class). -/
theorem spirvSwitch_fails_branching_classof :
    SpirvSwitch.classof Kind.IK_Switch = true ∧
    SpirvTerminator.classof Kind.IK_Switch = true ∧
    SpirvBranching.classof Kind.IK_Switch = false := by
  decide

/-- C2: an instruction kind satisfies the terminator classification predicate
iff it lies in the contiguous range Branch..Unreachable, i.e. iff it is one of
Branch, BranchConditional, Kill, Return, Switch, Unreachable; the merge
classification holds iff the kind is LoopMerge or SelectionMerge; and no
merge kind is classified as a terminator. -/
theorem terminator_merge_classification :
    ∀ k : Kind,
      (SpirvTerminator.classof k = true ↔
        (k = .IK_Branch ∨ k = .IK_BranchConditional ∨ k = .IK_Kill ∨
         k = .IK_Return ∨ k = .IK_Switch ∨ k = .IK_Unreachable)) ∧
      (SpirvMerge.classof k = true ↔
        (k = .IK_LoopMerge ∨ k = .IK_SelectionMerge)) ∧
      (SpirvMerge.classof k = true → SpirvTerminator.classof k = false) := by
  decide

/-- The subset of `spv::Op` opcodes named by the header's documentation that
the embedded classes distinguish (the atomic family plus a few carriers for
the shared-opcode kinds). -/
inductive Op where
  | OpNop
  | OpBranch
  | OpSwitch
  | OpReturn
  | OpMemoryBarrier
  | OpControlBarrier
  | OpImageSampleImplicitLod
  | OpImageWrite
  | OpAtomicLoad
  | OpAtomicIIncrement
  | OpAtomicIDecrement
  | OpAtomicFlagClear
  | OpAtomicFlagTestAndSet
  | OpAtomicStore
  | OpAtomicAnd
  | OpAtomicOr
  | OpAtomicXor
  | OpAtomicIAdd
  | OpAtomicISub
  | OpAtomicSMin
  | OpAtomicUMin
  | OpAtomicSMax
  | OpAtomicUMax
  | OpAtomicExchange
  | OpAtomicCompareExchange
deriving DecidableEq, Repr

/-- State of the `SpirvInstruction` base class: the fields the protected
constructor initializes (`kind`, `opcode`, `resultType`, `resultId`, `srcLoc`)
plus the mutable `debugName` (empty at construction). -/
structure SpirvInstruction where
  kind : Kind
  opcode : Op
  resultType : QualTypeRef
  resultId : Nat
  srcLoc : SourceLocationRef
  debugName : String
deriving DecidableEq, Repr

/-- `SpirvInstruction::getKind`. -/
def SpirvInstruction.getKind (i : SpirvInstruction) : Kind := i.kind

/-- `SpirvInstruction::getopcode`. -/
def SpirvInstruction.getopcode (i : SpirvInstruction) : Op := i.opcode

/-- `SpirvInstruction::getResultType`. -/
def SpirvInstruction.getResultType (i : SpirvInstruction) : QualTypeRef :=
  i.resultType

/-- `SpirvInstruction::getResultTypeId`: the header returns the constant `0`
(a TODO in the source defers real type-id resolution to a collaborator). -/
def SpirvInstruction.getResultTypeId (_ : SpirvInstruction) : Nat := 0

/-- `SpirvInstruction::getResultId`. -/
def SpirvInstruction.getResultId (i : SpirvInstruction) : Nat := i.resultId

/-- `SpirvInstruction::getSourceLocation`. -/
def SpirvInstruction.getSourceLocation (i : SpirvInstruction) : SourceLocationRef :=
  i.srcLoc

/-- `SpirvInstruction::setDebugName`: assigns `debugName`, the only mutation
the class exposes; modelled as a functional update. -/
def SpirvInstruction.setDebugName (i : SpirvInstruction) (name : String) :
    SpirvInstruction :=
  { i with debugName := name }

/-- `SpirvInstruction::getDebugName`. -/
def SpirvInstruction.getDebugName (i : SpirvInstruction) : String := i.debugName

/-- The protected `SpirvInstruction` constructor: stores its five arguments
and leaves the debug name empty. -/
def mkSpirvInstruction (kind : Kind) (opcode : Op) (resultType : QualTypeRef)
    (resultId : Nat) (loc : SourceLocationRef) : SpirvInstruction :=
  ⟨kind, opcode, resultType, resultId, loc, ""⟩

/-- C8: the kind, opcode, result type and result id fixed at construction are
returned unchanged by the accessors, and `setDebugName` changes only the debug
name: after it, `getDebugName` returns the new name while every other accessor
returns exactly what it returned before the call. -/
theorem accessors_stable_under_setDebugName :
    ∀ (k : Kind) (o : Op) (t : QualTypeRef) (r : Nat) (l : SourceLocationRef)
      (i : SpirvInstruction) (n : String),
      (mkSpirvInstruction k o t r l).getKind = k ∧
      (mkSpirvInstruction k o t r l).getopcode = o ∧
      (mkSpirvInstruction k o t r l).getResultType = t ∧
      (mkSpirvInstruction k o t r l).getResultId = r ∧
      (mkSpirvInstruction k o t r l).getSourceLocation = l ∧
      (i.setDebugName n).getDebugName = n ∧
      (i.setDebugName n).getKind = i.getKind ∧
      (i.setDebugName n).getopcode = i.getopcode ∧
      (i.setDebugName n).getResultType = i.getResultType ∧
      (i.setDebugName n).getResultId = i.getResultId ∧
      (i.setDebugName n).getSourceLocation = i.getSourceLocation := by
  intro k o t r l i n
  refine ⟨rfl, rfl, rfl, rfl, rfl, rfl, rfl, rfl, rfl, rfl, rfl⟩

/-- C9: `getResultTypeId` returns `0` for every instruction, whatever its
kind, opcode, result type, result id or any later `setDebugName` call: the
result-type-id resolution is stubbed to the trivial value in the header. -/
theorem getResultTypeId_always_zero :
    ∀ i : SpirvInstruction, i.getResultTypeId = 0 := by
  intro i
  rfl

/-- `SpirvBranch`: the single target block stored by the constructor
(`SpirvBranch(SourceLocation, SpirvBasicBlock *target)`). -/
structure SpirvBranch where
  targetLabel : SpirvBasicBlockRef
deriving DecidableEq, Repr

/-- `SpirvBranch::getTargetLabel`. -/
def SpirvBranch.getTargetLabel (b : SpirvBranch) : SpirvBasicBlockRef :=
  b.targetLabel

/-- `SpirvBranch::getTargetBranches`: returns `{targetLabel}`. -/
def SpirvBranch.getTargetBranches (b : SpirvBranch) : List SpirvBasicBlockRef :=
  [b.targetLabel]

/-- `SpirvBranchConditional`: condition, true label and false label stored by
the constructor. -/
structure SpirvBranchConditional where
  condition : SpirvInstructionRef
  trueLabel : SpirvBasicBlockRef
  falseLabel : SpirvBasicBlockRef
deriving DecidableEq, Repr

/-- `SpirvBranchConditional::getTargetBranches`: returns
`{trueLabel, falseLabel}`. -/
def SpirvBranchConditional.getTargetBranches (b : SpirvBranchConditional) :
    List SpirvBasicBlockRef :=
  [b.trueLabel, b.falseLabel]

/-- C5: a branch built with target `t` reports the singleton branch list
`[t]`, and a conditional branch built with condition `c`, true target `tt`
and false target `ft` reports exactly `[tt, ft]`, true target first. -/
theorem branch_target_branches :
    ∀ (t : SpirvBasicBlockRef) (c : SpirvInstructionRef)
      (tt ft : SpirvBasicBlockRef),
      (SpirvBranch.mk t).getTargetBranches = [t] ∧
      (SpirvBranchConditional.mk c tt ft).getTargetBranches = [tt, ft] := by
  intro t c tt ft
  exact ⟨rfl, rfl⟩

/-- `SpirvDecoration`: decoration target, decoration code, optional member
index and parameter list, as stored by the constructor. -/
structure SpirvDecoration where
  target : SpirvInstructionRef
  decoration : Nat
  index : Option Nat
  params : List Nat
deriving DecidableEq, Repr

/-- `SpirvDecoration::isMemberDecoration`: `index.hasValue()`. -/
def SpirvDecoration.isMemberDecoration (d : SpirvDecoration) : Bool :=
  d.index.isSome

/-- `SpirvDecoration::getMemberIndex`: `index.getValue()`; calling it with no
member index present is a contract violation in the source
(`llvm::Optional::getValue` asserts), modelled by an arbitrary default. -/
def SpirvDecoration.getMemberIndex (d : SpirvDecoration) : Nat :=
  d.index.getD 0

/-- C7: a decoration is a member decoration exactly when it was constructed
with a member index present, and when index `i` was supplied,
`getMemberIndex` returns exactly `i`. -/
theorem decoration_member_index_spec :
    ∀ (t : SpirvInstructionRef) (dec : Nat) (idx : Option Nat) (ps : List Nat),
      ((SpirvDecoration.mk t dec idx ps).isMemberDecoration = idx.isSome) ∧
      (∀ i : Nat, idx = some i →
        (SpirvDecoration.mk t dec idx ps).getMemberIndex = i) := by
  intro t dec idx ps
  refine ⟨rfl, ?_⟩
  intro i hi
  simp [SpirvDecoration.getMemberIndex, hi]

/-- C7 witness: the member decoration built with member index 7 reports
`isMemberDecoration` and returns index 7. -/
theorem decoration_member_index_spec_witness :
    (SpirvDecoration.mk 1 2 (some 7) []).isMemberDecoration = (some 7).isSome ∧
    (SpirvDecoration.mk 1 2 (some 7) []).getMemberIndex = 7 :=
  ⟨(decoration_member_index_spec 1 2 (some 7) []).1,
   (decoration_member_index_spec 1 2 (some 7) []).2 7 rfl⟩

/-- `SpirvBarrier`: memory scope, memory semantics and the optional execution
scope (defaulted to absent in the constructor signature). -/
structure SpirvBarrier where
  memoryScope : Nat
  memorySemantics : Nat
  executionScope : Option Nat
deriving DecidableEq, Repr

/-- The `SpirvBarrier` constructor with its defaulted last parameter
(`executionScope = llvm::None` when omitted). -/
def mkSpirvBarrier (memoryScope : Nat) (memorySemantics : Nat)
    (executionScope : Option Nat := none) : SpirvBarrier :=
  ⟨memoryScope, memorySemantics, executionScope⟩

/-- `SpirvBarrier::hasExecutionScope`: `executionScope.hasValue()`. -/
def SpirvBarrier.hasExecutionScope (b : SpirvBarrier) : Bool :=
  b.executionScope.isSome

/-- `SpirvBarrier::isControlBarrier`: defined as `hasExecutionScope()`. -/
def SpirvBarrier.isControlBarrier (b : SpirvBarrier) : Bool :=
  b.hasExecutionScope

/-- C10: `isControlBarrier` agrees with `hasExecutionScope`, which holds
exactly when an execution scope was supplied at construction; a barrier built
with the execution scope omitted (the default) is a memory barrier, i.e.
`isControlBarrier` is false. -/
theorem barrier_control_iff_execution_scope :
    ∀ (ms sem : Nat) (es : Option Nat),
      (mkSpirvBarrier ms sem es).isControlBarrier =
        (mkSpirvBarrier ms sem es).hasExecutionScope ∧
      (mkSpirvBarrier ms sem es).hasExecutionScope = es.isSome ∧
      (mkSpirvBarrier ms sem).isControlBarrier = false := by
  intro ms sem es
  exact ⟨rfl, rfl, rfl⟩

/-- `SpirvSwitch`: selector, default label and the ordered
`(literal, target)` vector stored by the constructor. -/
structure SpirvSwitch where
  selector : SpirvInstructionRef
  defaultLabel : SpirvBasicBlockRef
  targets : List (Nat × SpirvBasicBlockRef)
deriving DecidableEq, Repr

/-- Modelled from the spec: the body of
`SpirvSwitch::getTargetLabelForLiteral` lives in the out-of-scope `.cpp`
file; per the spec it "returns the matching target or the default if no
literal matches", i.e. a first-match scan of the case table. -/
def findCaseLabel : List (Nat × SpirvBasicBlockRef) → SpirvBasicBlockRef →
    Nat → SpirvBasicBlockRef
  | [], dflt, _ => dflt
  | (lit, lbl) :: rest, dflt, v =>
      if lit = v then lbl else findCaseLabel rest dflt v

/-- `SpirvSwitch::getTargetLabelForLiteral` (modelled from the spec, see
`findCaseLabel`). -/
def SpirvSwitch.getTargetLabelForLiteral (sw : SpirvSwitch) (v : Nat) :
    SpirvBasicBlockRef :=
  findCaseLabel sw.targets sw.defaultLabel v

/-- Modelled from the spec: the body of `SpirvSwitch::getTargetBranches`
lives in the out-of-scope `.cpp` file; per the spec it "returns default
followed by all case targets in insertion order (duplicates ... preserved,
not deduplicated)". -/
def SpirvSwitch.getTargetBranches (sw : SpirvSwitch) :
    List SpirvBasicBlockRef :=
  sw.defaultLabel :: sw.targets.map Prod.snd

/-- A first-match scan over a table whose first components all differ from
`v` falls through to the default label. -/
theorem findCaseLabel_not_mem (dflt v : Nat) :
    ∀ ts : List (Nat × SpirvBasicBlockRef),
      (∀ p ∈ ts, p.1 ≠ v) → findCaseLabel ts dflt v = dflt := by
  intro ts
  induction ts with
  | nil => intro _; rfl
  | cons p rest ih =>
    intro h
    obtain ⟨lit, lbl⟩ := p
    have hne : lit ≠ v := h (lit, lbl) (List.mem_cons_self _ _)
    simp only [findCaseLabel, if_neg hne]
    exact ih fun q hq => h q (List.mem_cons_of_mem _ hq)

/-- Over a table with pairwise-distinct literals, a first-match scan returns
the label registered for `v` whenever `(v, b)` is an entry. -/
theorem findCaseLabel_mem_nodup (dflt v b : Nat) :
    ∀ ts : List (Nat × SpirvBasicBlockRef),
      (ts.map Prod.fst).Nodup → (v, b) ∈ ts → findCaseLabel ts dflt v = b := by
  intro ts
  induction ts with
  | nil => intro _ h; cases h
  | cons p rest ih =>
    intro hnd hmem
    obtain ⟨lit, lbl⟩ := p
    simp only [List.map_cons, List.nodup_cons] at hnd
    rcases List.mem_cons.mp hmem with heq | hrest
    · cases heq
      simp [findCaseLabel]
    · have hne : lit ≠ v := by
        intro h
        subst h
        exact hnd.1 (List.mem_map.mpr ⟨(lit, b), hrest, rfl⟩)
      simp only [findCaseLabel, if_neg hne]
      exact ih hnd.2 hrest

/-- C4: for a switch over a table of distinct literals,
`getTargetLabelForLiteral v` returns the block registered for `v` when `v`
appears among the literals and the default block when no literal equals `v`;
`getTargetBranches` has length `1 +` the number of case entries and consists
of the default block followed by all case target blocks in insertion order,
duplicates preserved. -/
theorem switch_lookup_and_branches (sw : SpirvSwitch) (v b : Nat) :
    ((sw.targets.map Prod.fst).Nodup → (v, b) ∈ sw.targets →
      sw.getTargetLabelForLiteral v = b) ∧
    ((∀ p ∈ sw.targets, p.1 ≠ v) →
      sw.getTargetLabelForLiteral v = sw.defaultLabel) ∧
    sw.getTargetBranches.length = 1 + sw.targets.length ∧
    sw.getTargetBranches = sw.defaultLabel :: sw.targets.map Prod.snd := by
  refine ⟨fun hnd hmem => findCaseLabel_mem_nodup _ _ _ _ hnd hmem,
    fun h => findCaseLabel_not_mem _ _ _ h, ?_, rfl⟩
  simp [SpirvSwitch.getTargetBranches, Nat.add_comm]

/-- C4 witness: the switch over literals `{1 ↦ 10, 2 ↦ 11, 5 ↦ 10}` with
default block 13 resolves literal 2 to block 11, resolves the absent literal
9 to the default 13, and lists branches `[13, 10, 11, 10]` (the duplicate
target 10 preserved). -/
theorem switch_lookup_and_branches_witness :
    SpirvSwitch.getTargetLabelForLiteral ⟨100, 13, [(1, 10), (2, 11), (5, 10)]⟩ 2 = 11 ∧
    SpirvSwitch.getTargetLabelForLiteral ⟨100, 13, [(1, 10), (2, 11), (5, 10)]⟩ 9 = 13 ∧
    (SpirvSwitch.getTargetBranches ⟨100, 13, [(1, 10), (2, 11), (5, 10)]⟩).length = 1 + 3 ∧
    SpirvSwitch.getTargetBranches ⟨100, 13, [(1, 10), (2, 11), (5, 10)]⟩ = [13, 10, 11, 10] :=
  ⟨(switch_lookup_and_branches ⟨100, 13, [(1, 10), (2, 11), (5, 10)]⟩ 2 11).1
      (by decide) (by decide),
   (switch_lookup_and_branches ⟨100, 13, [(1, 10), (2, 11), (5, 10)]⟩ 9 0).2.1
      (by decide),
   (switch_lookup_and_branches ⟨100, 13, [(1, 10), (2, 11), (5, 10)]⟩ 0 0).2.2.1,
   (switch_lookup_and_branches ⟨100, 13, [(1, 10), (2, 11), (5, 10)]⟩ 0 0).2.2.2⟩

/-- `SpirvAtomic`: the opcode held in the instruction base together with the
operand fields of the derived class (`memorySemanticUnequal` is only
meaningful for compare-exchange). -/
structure SpirvAtomic where
  opcode : Op
  pointer : SpirvInstructionRef
  scope : Nat
  memorySemantic : Nat
  memorySemanticUnequal : Nat
  value : Option SpirvInstructionRef
  comparator : Option SpirvInstructionRef
deriving DecidableEq, Repr

/-- `SpirvAtomic::hasValue`: `value != nullptr`. -/
def SpirvAtomic.hasValue (a : SpirvAtomic) : Bool := a.value.isSome

/-- `SpirvAtomic::hasComparator`: `comparator != nullptr`. -/
def SpirvAtomic.hasComparator (a : SpirvAtomic) : Bool := a.comparator.isSome

/-- Modelled from the spec: the atomic opcodes for which a missing value
operand is legal ("value absence legal only for
load/increment/decrement/flag ops"). -/
def atomicValueFreeOp (op : Op) : Bool :=
  match op with
  | .OpAtomicLoad | .OpAtomicIIncrement | .OpAtomicIDecrement
  | .OpAtomicFlagClear | .OpAtomicFlagTestAndSet => true
  | _ => false

/-- Modelled from the spec: the first `SpirvAtomic` constructor (its body is
in the out-of-scope `.cpp`).  It serves every atomic opcode except
compare-exchange, stores no comparator, and rejects a missing value operand
unless the opcode is one of the load/increment/decrement/flag ops.  Rejected
construction is modelled as `none`. -/
def mkSpirvAtomic (opcode : Op) (pointer : SpirvInstructionRef)
    (scope sem : Nat) (value : Option SpirvInstructionRef := none) :
    Option SpirvAtomic :=
  if opcode ≠ Op.OpAtomicCompareExchange ∧
      (value.isSome || atomicValueFreeOp opcode) = true then
    some ⟨opcode, pointer, scope, sem, 0, value, none⟩
  else none

/-- Modelled from the spec: the second `SpirvAtomic` constructor (body in the
out-of-scope `.cpp`): "constructing with the compare-exchange opcode requires
both `value` and `comparator` non-null and both equal/unequal
memory-semantics set".  Rejected construction is modelled as `none`. -/
def mkSpirvAtomicWithComparator (opcode : Op) (pointer : SpirvInstructionRef)
    (scope semEq semUneq : Nat)
    (value comparator : Option SpirvInstructionRef) : Option SpirvAtomic :=
  if opcode = Op.OpAtomicCompareExchange ∧ value.isSome = true ∧
      comparator.isSome = true then
    some ⟨opcode, pointer, scope, semEq, semUneq, value, comparator⟩
  else none

/-- C6: an atomic has a comparator iff its opcode is compare-exchange: the
non-compare constructor always yields `hasComparator = false` and never
accepts the compare-exchange opcode; the compare-exchange constructor only
succeeds with the compare-exchange opcode and non-null value and comparator,
and then reports both present; supplying a null value or comparator to it is
rejected. -/
theorem atomic_comparator_iff_compare_exchange (op : Op)
    (ptr scope semEq semUneq : Nat) (v c : Option SpirvInstructionRef)
    (a : SpirvAtomic) :
    (mkSpirvAtomic op ptr scope semEq v = some a →
      a.hasComparator = false ∧ op ≠ Op.OpAtomicCompareExchange ∧
      a.hasComparator = decide (a.opcode = Op.OpAtomicCompareExchange)) ∧
    (mkSpirvAtomicWithComparator op ptr scope semEq semUneq v c = some a →
      op = Op.OpAtomicCompareExchange ∧ a.hasValue = true ∧
      a.hasComparator = true ∧
      a.hasComparator = decide (a.opcode = Op.OpAtomicCompareExchange)) ∧
    ((v.isSome = false ∨ c.isSome = false) →
      mkSpirvAtomicWithComparator op ptr scope semEq semUneq v c = none) := by
  refine ⟨?_, ?_, ?_⟩
  · intro h
    unfold mkSpirvAtomic at h
    by_cases hc : op ≠ Op.OpAtomicCompareExchange ∧
        (v.isSome || atomicValueFreeOp op) = true
    · rw [if_pos hc] at h
      injection h with h
      subst h
      exact ⟨rfl, hc.1, by simp [SpirvAtomic.hasComparator, hc.1]⟩
    · rw [if_neg hc] at h
      exact Option.noConfusion h
  · intro h
    unfold mkSpirvAtomicWithComparator at h
    by_cases hc : op = Op.OpAtomicCompareExchange ∧ v.isSome = true ∧
        c.isSome = true
    · rw [if_pos hc] at h
      injection h with h
      subst h
      exact ⟨hc.1, hc.2.1, hc.2.2, by simp [SpirvAtomic.hasComparator, SpirvAtomic.hasValue, hc.1, hc.2.2]⟩
    · rw [if_neg hc] at h
      exact Option.noConfusion h
  · intro hvc
    unfold mkSpirvAtomicWithComparator
    rw [if_neg]
    intro hc
    rcases hvc with h | h
    · rw [h] at hc
      exact Bool.false_ne_true hc.2.1
    · rw [h] at hc
      exact Bool.false_ne_true hc.2.2

/-- C6 witness: an integer-add atomic built by the non-compare constructor
has no comparator; a compare-exchange atomic built with value 5 and
comparator 6 reports a comparator; and the compare-exchange constructor
rejects a null value. -/
theorem atomic_comparator_iff_compare_exchange_witness :
    SpirvAtomic.hasComparator ⟨Op.OpAtomicIAdd, 1, 2, 3, 0, some 4, none⟩ = false ∧
    SpirvAtomic.hasComparator ⟨Op.OpAtomicCompareExchange, 1, 2, 3, 4, some 5, some 6⟩ = true ∧
    mkSpirvAtomicWithComparator Op.OpAtomicCompareExchange 1 2 3 4 none (some 6) = none :=
  ⟨((atomic_comparator_iff_compare_exchange Op.OpAtomicIAdd 1 2 3 0 (some 4) none
      ⟨Op.OpAtomicIAdd, 1, 2, 3, 0, some 4, none⟩).1 (by decide)).1,
   ((atomic_comparator_iff_compare_exchange Op.OpAtomicCompareExchange 1 2 3 4
      (some 5) (some 6)
      ⟨Op.OpAtomicCompareExchange, 1, 2, 3, 4, some 5, some 6⟩).2.1 (by decide)).2.2.1,
   (atomic_comparator_iff_compare_exchange Op.OpAtomicCompareExchange 1 2 3 4
      none (some 6) ⟨Op.OpNop, 0, 0, 0, 0, none, none⟩).2.2 (Or.inl rfl)⟩

/-- `SpirvImageOp`: image, coordinate, the twelve optional ancillary operand
slots and the image-operands bitmask, as stored by the constructor. -/
structure SpirvImageOp where
  image : SpirvInstructionRef
  coordinate : SpirvInstructionRef
  dref : Option SpirvInstructionRef
  bias : Option SpirvInstructionRef
  lod : Option SpirvInstructionRef
  gradDx : Option SpirvInstructionRef
  gradDy : Option SpirvInstructionRef
  constOffset : Option SpirvInstructionRef
  offset : Option SpirvInstructionRef
  constOffsets : Option SpirvInstructionRef
  sample : Option SpirvInstructionRef
  minLod : Option SpirvInstructionRef
  component : Option SpirvInstructionRef
  texelToWrite : Option SpirvInstructionRef
  operandsMask : Nat
deriving DecidableEq, Repr

/-- `SpirvImageOp::getImageOperandsMask`. -/
def SpirvImageOp.getImageOperandsMask (i : SpirvImageOp) : Nat :=
  i.operandsMask

/-- `SpirvImageOp::hasDref`: `dref != nullptr`. -/
def SpirvImageOp.hasDref (i : SpirvImageOp) : Bool := i.dref.isSome

/-- `SpirvImageOp::hasBias`: `bias != nullptr`. -/
def SpirvImageOp.hasBias (i : SpirvImageOp) : Bool := i.bias.isSome

/-- `SpirvImageOp::hasLod`: `lod != nullptr`. -/
def SpirvImageOp.hasLod (i : SpirvImageOp) : Bool := i.lod.isSome

/-- `SpirvImageOp::hasGrad`: `gradDx != nullptr && gradDy != nullptr`. -/
def SpirvImageOp.hasGrad (i : SpirvImageOp) : Bool :=
  i.gradDx.isSome && i.gradDy.isSome

/-- `SpirvImageOp::hasConstOffset`: `constOffset != nullptr`. -/
def SpirvImageOp.hasConstOffset (i : SpirvImageOp) : Bool :=
  i.constOffset.isSome

/-- `SpirvImageOp::hasOffset`: `offset != nullptr`. -/
def SpirvImageOp.hasOffset (i : SpirvImageOp) : Bool := i.offset.isSome

/-- `SpirvImageOp::hasConstOffsets`: `constOffsets != nullptr`. -/
def SpirvImageOp.hasConstOffsets (i : SpirvImageOp) : Bool :=
  i.constOffsets.isSome

/-- `SpirvImageOp::hasSample`: `sample != nullptr`. -/
def SpirvImageOp.hasSample (i : SpirvImageOp) : Bool := i.sample.isSome

/-- `SpirvImageOp::hasMinLod`: `minLod != nullptr`. -/
def SpirvImageOp.hasMinLod (i : SpirvImageOp) : Bool := i.minLod.isSome

/-- `SpirvImageOp::hasComponent`: `component != nullptr`. -/
def SpirvImageOp.hasComponent (i : SpirvImageOp) : Bool := i.component.isSome

/-- `SpirvImageOp::isImageWrite`: `texelToWrite != nullptr`. -/
def SpirvImageOp.isImageWrite (i : SpirvImageOp) : Bool :=
  i.texelToWrite.isSome

/-- Modelled from the spec: neither the `SpirvImageOp` constructor body nor
the external mask enumeration is part of the sources at hand; the spec's
data-model invariant says "for every optional operand slot, slot is non-null
⇔ corresponding bit set in bitmask".  Each of the twelve optional operand
slots is assigned its own bit in the constructor's parameter order
(dref ↦ bit 0, bias ↦ 1, lod ↦ 2, gradDx ↦ 3, gradDy ↦ 4, constOffset ↦ 5,
offset ↦ 6, constOffsets ↦ 7, sample ↦ 8, minLod ↦ 9, component ↦ 10,
texelToWrite ↦ 11), and this predicate states the invariant between a
supplied bitmask and the supplied slots. -/
def imageOpMaskConsistent (mask : Nat)
    (dref bias lod gradDx gradDy constOffset offset constOffsets
      sample minLod component texelToWrite : Option SpirvInstructionRef) :
    Prop :=
  mask.testBit 0 = dref.isSome ∧
  mask.testBit 1 = bias.isSome ∧
  mask.testBit 2 = lod.isSome ∧
  mask.testBit 3 = gradDx.isSome ∧
  mask.testBit 4 = gradDy.isSome ∧
  mask.testBit 5 = constOffset.isSome ∧
  mask.testBit 6 = offset.isSome ∧
  mask.testBit 7 = constOffsets.isSome ∧
  mask.testBit 8 = sample.isSome ∧
  mask.testBit 9 = minLod.isSome ∧
  mask.testBit 10 = component.isSome ∧
  mask.testBit 11 = texelToWrite.isSome

instance (mask : Nat)
    (dref bias lod gradDx gradDy constOffset offset constOffsets
      sample minLod component texelToWrite : Option SpirvInstructionRef) :
    Decidable (imageOpMaskConsistent mask dref bias lod gradDx gradDy
      constOffset offset constOffsets sample minLod component texelToWrite) :=
  inferInstanceAs (Decidable (_ ∧ _))

/-- Modelled from the spec: the `SpirvImageOp` constructor (body in the
out-of-scope `.cpp`); construction succeeds exactly when the supplied
bitmask is consistent with the supplied optional operand slots, enforcing
the spec's invariant at construction.  Rejected construction is `none`. -/
def mkSpirvImageOp (image coordinate : SpirvInstructionRef) (mask : Nat)
    (dref bias lod gradDx gradDy constOffset offset constOffsets
      sample minLod component texelToWrite : Option SpirvInstructionRef) :
    Option SpirvImageOp :=
  if imageOpMaskConsistent mask dref bias lod gradDx gradDy constOffset
      offset constOffsets sample minLod component texelToWrite then
    some ⟨image, coordinate, dref, bias, lod, gradDx, gradDy, constOffset,
      offset, constOffsets, sample, minLod, component, texelToWrite, mask⟩
  else none

/-- C3: for every constructed image operation, each presence predicate agrees
with the corresponding bit of the stored image-operands bitmask returned by
`getImageOperandsMask` (all 12 optional slots, independently toggleable since
the slot arguments below are arbitrary), and `isImageWrite` holds iff the
texel-to-write slot is non-null. -/
theorem imageOp_slots_match_mask (img coord : SpirvInstructionRef)
    (mask : Nat)
    (dref bias lod gdx gdy cOff off cOffs samp mLod comp ttw :
      Option SpirvInstructionRef) (a : SpirvImageOp)
    (h : mkSpirvImageOp img coord mask dref bias lod gdx gdy cOff off cOffs
      samp mLod comp ttw = some a) :
    a.hasDref = a.getImageOperandsMask.testBit 0 ∧
    a.hasBias = a.getImageOperandsMask.testBit 1 ∧
    a.hasLod = a.getImageOperandsMask.testBit 2 ∧
    a.gradDx.isSome = a.getImageOperandsMask.testBit 3 ∧
    a.gradDy.isSome = a.getImageOperandsMask.testBit 4 ∧
    a.hasGrad = (a.getImageOperandsMask.testBit 3 &&
      a.getImageOperandsMask.testBit 4) ∧
    a.hasConstOffset = a.getImageOperandsMask.testBit 5 ∧
    a.hasOffset = a.getImageOperandsMask.testBit 6 ∧
    a.hasConstOffsets = a.getImageOperandsMask.testBit 7 ∧
    a.hasSample = a.getImageOperandsMask.testBit 8 ∧
    a.hasMinLod = a.getImageOperandsMask.testBit 9 ∧
    a.hasComponent = a.getImageOperandsMask.testBit 10 ∧
    a.isImageWrite = a.getImageOperandsMask.testBit 11 ∧
    a.isImageWrite = a.texelToWrite.isSome := by
  unfold mkSpirvImageOp at h
  by_cases hc : imageOpMaskConsistent mask dref bias lod gdx gdy cOff off
      cOffs samp mLod comp ttw
  · rw [if_pos hc] at h
    injection h with h
    subst h
    obtain ⟨h0, h1, h2, h3, h4, h5, h6, h7, h8, h9, h10, h11⟩ := hc
    exact ⟨h0.symm, h1.symm, h2.symm, h3.symm, h4.symm,
      by simp [SpirvImageOp.hasGrad, SpirvImageOp.getImageOperandsMask, h3, h4],
      h5.symm, h6.symm, h7.symm, h8.symm, h9.symm, h10.symm, h11.symm, rfl⟩
  · rw [if_neg hc] at h
    exact Option.noConfusion h

/-- C3 witness: an image operation with dref, lod and texel-to-write present
(mask `2053 = 1 + 4 + 2048`) reports exactly those bits through its presence
predicates. -/
theorem imageOp_slots_match_mask_witness :
    SpirvImageOp.hasDref ⟨7, 8, some 1, none, some 2, none, none, none, none,
      none, none, none, none, some 3, 2053⟩ = Nat.testBit 2053 0 ∧
    SpirvImageOp.hasBias ⟨7, 8, some 1, none, some 2, none, none, none, none,
      none, none, none, none, some 3, 2053⟩ = Nat.testBit 2053 1 ∧
    SpirvImageOp.hasLod ⟨7, 8, some 1, none, some 2, none, none, none, none,
      none, none, none, none, some 3, 2053⟩ = Nat.testBit 2053 2 ∧
    SpirvImageOp.isImageWrite ⟨7, 8, some 1, none, some 2, none, none, none,
      none, none, none, none, none, some 3, 2053⟩ = Nat.testBit 2053 11 := by
  have h := imageOp_slots_match_mask 7 8 2053 (some 1) none (some 2) none none
    none none none none none none (some 3)
    ⟨7, 8, some 1, none, some 2, none, none, none, none, none, none, none,
      none, some 3, 2053⟩ (by decide)
  exact ⟨h.1, h.2.1, h.2.2.1, h.2.2.2.2.2.2.2.2.2.2.2.2.1⟩
